import Mathlib

/-!
Verification of the vibechecks invocation-and-validation engine
(`src/llms/gemini_wrapper.py`) against its natural-language specification.

The Python source is shallowly embedded: strings become `List Char`,
the Gemini client becomes an oracle `ℕ → RoundTrip` mapping the 1-based
attempt index to the outcome of that round trip, `time.sleep` calls are
recorded in a trace, and the retry loops become structurally recursive
functions whose fuel is the total try count computed before the loop.
-/

set_option autoImplicit false

namespace VibeChecks

/-! Text helpers modelling the Python `str` operations used by the source. -/

/-- Whitespace test used by Python `str.strip` (ASCII fragment). -/
def isSpaceC (c : Char) : Bool := c.isWhitespace

/-- Python `str.lower` (ASCII fragment), applied characterwise. -/
def lowerL (s : List Char) : List Char := s.map Char.toLower

/-- Python `str.strip`: drop leading and trailing whitespace. -/
def stripL (s : List Char) : List Char :=
  ((s.dropWhile isSpaceC).reverse.dropWhile isSpaceC).reverse

/-- Python `str.rstrip`: drop trailing whitespace only (used in lemmas). -/
def rstripL (s : List Char) : List Char :=
  (s.reverse.dropWhile isSpaceC).reverse

/-- Boolean prefix test on character lists. -/
def isPrefixB : List Char → List Char → Bool
  | [], _ => true
  | _ :: _, [] => false
  | a :: as, b :: bs => a == b && isPrefixB as bs

/-- Python substring containment `needle in hay`. -/
def containsSub : List Char → List Char → Bool
  | needle, [] => needle.isEmpty
  | needle, c :: rest => isPrefixB needle (c :: rest) || containsSub needle rest

/-- Boolean suffix test on character lists. -/
def isSuffixB (s t : List Char) : Bool := isPrefixB s.reverse t.reverse

/-! The configuration value object (`models/config.py` knobs used here). -/

/-- Runtime knobs of `VibeCheckConfig` consumed by the wrapper: preferred
try count, legacy retry count, and the exponential backoff parameters. -/
structure VibeCheckConfig where
  num_tries : ℕ
  max_retries : ℕ
  backoff_base : ℚ
  backoff_max : ℚ

/-- Line 47/115: `total_tries = max(self.config.num_tries, self.config.max_retries + 1)`,
evaluated once before the attempt loop. -/
def totalTries (cfg : VibeCheckConfig) : ℕ :=
  max cfg.num_tries (cfg.max_retries + 1)

/-- Lines 62/75/130/149:
`delay = min(self.config.backoff_base * (2 ** (attempt - 1)), self.config.backoff_max)`. -/
def backoffDelay (cfg : VibeCheckConfig) (attempt : ℕ) : ℚ :=
  min (cfg.backoff_base * 2 ^ (attempt - 1)) cfg.backoff_max

/-! The external round trip and its response. -/

/-- One round trip to `client.models.generate_content`: either the call
raises (any transport/service error) or it returns a response object whose
`text` attribute may be missing/None (`none`) or a string. -/
inductive RoundTrip where
  | err : RoundTrip
  | ok : Option (List Char) → RoundTrip
  deriving DecidableEq

/-- Lines 67/135: `(getattr(response, "text", None) or "")` — a missing or
`None` or empty `text` field collapses to the empty string. -/
def effText : Option (List Char) → List Char
  | none => []
  | some t => if t.isEmpty then [] else t

theorem effText_some (t : List Char) : effText (some t) = t := by
  cases t <;> simp [effText]

/-- The typed failure raised on exhaustion (`VibeResponseTypeException`),
carrying its message text. -/
inductive VibeError where
  | responseType : List Char → VibeError
  deriving DecidableEq

/-- Message of line 79: raised when statement evaluation exhausts all tries. -/
def evalFailMsg : List Char :=
  "Unable to get a valid response from the Gemini API.".data

/-- Observable outcome of one call: the returned value or raised failure,
the trace of `time.sleep` delays, and the number of attempts performed. -/
structure LoopOut (α : Type) where
  result : Except VibeError α
  sleeps : List ℚ
  attempts : ℕ

/-- Substrings searched by the boolean interpreter (line 70). -/
def trueText : List Char := "true".data

/-- Substrings searched by the boolean interpreter (line 72). -/
def falseText : List Char := "false".data

/-- Lines 48-77 of `vibe_eval_statement`: the attempt loop. `total` is the
precomputed try count, `fuel` the remaining iterations and `attempt` the
1-based index of the current iteration. A transport error (`RoundTrip.err`,
the `except` branch) backs off when further attempts remain and continues;
a returned response is lower-cased, stripped, and scanned for `"true"` then
`"false"`; otherwise the attempt likewise backs off and continues. Running
out of iterations models falling through the loop to the `raise` of line 79. -/
def vibeEvalAux (cfg : VibeCheckConfig) (oracle : ℕ → RoundTrip) (total : ℕ) :
    ℕ → ℕ → LoopOut Bool
  | 0, _ => ⟨Except.error (VibeError.responseType evalFailMsg), [], 0⟩
  | fuel + 1, attempt =>
    match oracle attempt with
    | RoundTrip.err =>
      let rest := vibeEvalAux cfg oracle total fuel (attempt + 1)
      if attempt < total then
        ⟨rest.result, backoffDelay cfg attempt :: rest.sleeps, rest.attempts + 1⟩
      else
        ⟨rest.result, rest.sleeps, rest.attempts + 1⟩
    | RoundTrip.ok otext =>
      let output_text := stripL (lowerL (effText otext))
      if containsSub trueText output_text then ⟨Except.ok true, [], 1⟩
      else if containsSub falseText output_text then ⟨Except.ok false, [], 1⟩
      else
        let rest := vibeEvalAux cfg oracle total fuel (attempt + 1)
        if attempt < total then
          ⟨rest.result, backoffDelay cfg attempt :: rest.sleeps, rest.attempts + 1⟩
        else
          ⟨rest.result, rest.sleeps, rest.attempts + 1⟩

/-- `GeminiWrapper.vibe_eval_statement` (lines 32-79). The statement itself
only reaches the prompt and the logs, so the loop never inspects it. -/
def vibe_eval_statement (cfg : VibeCheckConfig) (oracle : ℕ → RoundTrip)
    (_statement : List Char) : LoopOut Bool :=
  vibeEvalAux cfg oracle (totalTries cfg) (totalTries cfg) 1

/-! Function simulation: return annotations, Python values, coercion. -/

/-- Closed set of return-type tags, following the spec's design note that the
dynamic type introspection must become an explicit enumerable tag system. -/
inductive TyTag where
  | bool : TyTag
  | int : TyTag
  | str : TyTag
  deriving DecidableEq

/-- Python values relevant to this engine: `None`, booleans, integers,
strings, and type objects drawn from the closed tag set. -/
inductive PyVal where
  | pyNone : PyVal
  | pyBool : Bool → PyVal
  | pyInt : ℤ → PyVal
  | pyStr : List Char → PyVal
  | pyType : TyTag → PyVal
  deriving DecidableEq

/-- The `return_annotation` of an `inspect.Signature`: either the sentinel
`inspect.Signature.empty` or the annotation object itself. -/
inductive Ann where
  | empty : Ann
  | given : PyVal → Ann

/-- Lines 103-106: `return_type = None` when the annotation is the empty
sentinel, otherwise the annotation object itself (`PyVal.pyNone` plays the
role of Python `None`). -/
def returnTypeOf : Ann → PyVal
  | Ann.empty => PyVal.pyNone
  | Ann.given v => v

/-- Python truthiness of the embedded values, as tested by
`if return_type else ""` on line 107. -/
def truthy : PyVal → Bool
  | PyVal.pyNone => false
  | PyVal.pyBool b => b
  | PyVal.pyInt n => n != 0
  | PyVal.pyStr s => !s.isEmpty
  | PyVal.pyType _ => true

/-- Python type-object names. -/
def tyName : TyTag → List Char
  | TyTag.bool => "bool".data
  | TyTag.int => "int".data
  | TyTag.str => "str".data

/-- Python `str()` of the embedded values (used by the f-string on line 107). -/
def pyToString : PyVal → List Char
  | PyVal.pyNone => "None".data
  | PyVal.pyBool true => "True".data
  | PyVal.pyBool false => "False".data
  | PyVal.pyInt n => (toString n).data
  | PyVal.pyStr s => s
  | PyVal.pyType t => "<class \x27".data ++ tyName t ++ "\x27>".data

/-- Python `repr()` of the embedded values (used by `{return_type!r}` on
line 153). -/
def pyRepr : PyVal → List Char
  | PyVal.pyStr s => "\x27".data ++ s ++ "\x27".data
  | v => pyToString v

/-- Message of line 153: raised when function simulation exhausts all tries. -/
def callFailMsg (return_type : PyVal) : List Char :=
  "Unable to get a valid response matching ".data ++ pyRepr return_type
    ++ " from the Gemini API.".data

/-- Decimal digit accumulation for `parseIntL`. -/
def digitsToNatAux : List Char → ℕ → Option ℕ
  | [], acc => some acc
  | c :: rest, acc =>
    if c.isDigit then digitsToNatAux rest (acc * 10 + (c.toNat - 48)) else none

/-- Parse a nonempty all-digit string. -/
def digitsToNat (s : List Char) : Option ℕ :=
  if s.isEmpty then none else digitsToNatAux s 0

/-- Python `int(text)` on already-stripped text: optional sign then digits. -/
def parseIntL : List Char → Option ℤ
  | '-' :: rest => (digitsToNat rest).map (fun n => -(n : ℤ))
  | '+' :: rest => (digitsToNat rest).map (fun n => (n : ℤ))
  | s => (digitsToNat s).map (fun n => (n : ℤ))

/-- Modelled from the spec: the helper `_maybe_coerce` lives in the shared
`LlmWrapper` base class (`llms/llm_wrapper.py`), which is not among the
sources. Per spec section 4.3 it attempts to coerce the stripped raw text
toward the declared type with built-in conversions (numeric parsing, boolean
parsing, textual pass-through), and a failed coercion is not a hard error:
the text is left unconverted so that the type check then rejects it. A
target that is not a type object from the closed tag set supports no
conversion and likewise leaves the text unconverted. -/
def maybe_coerce (raw : List Char) (ty : PyVal) : PyVal :=
  match ty with
  | PyVal.pyType TyTag.int =>
    match parseIntL raw with
    | some n => PyVal.pyInt n
    | none => PyVal.pyStr raw
  | PyVal.pyType TyTag.bool =>
    if lowerL raw = "true".data then PyVal.pyBool true
    else if lowerL raw = "false".data then PyVal.pyBool false
    else PyVal.pyStr raw
  | PyVal.pyType TyTag.str => PyVal.pyStr raw
  | _ => PyVal.pyStr raw

/-- Modelled from the spec: the helper `_is_match` lives in the shared
`LlmWrapper` base class (`llms/llm_wrapper.py`), which is not among the
sources. Per spec section 4.3 it verifies that the coerced value actually
satisfies the declared type; no value satisfies a target that is not a type
object from the closed tag set, which yields a rejection. -/
def is_match (v : PyVal) (ty : PyVal) : Bool :=
  match ty with
  | PyVal.pyType TyTag.bool => match v with | PyVal.pyBool _ => true | _ => false
  | PyVal.pyType TyTag.int => match v with | PyVal.pyInt _ => true | _ => false
  | PyVal.pyType TyTag.str => match v with | PyVal.pyStr _ => true | _ => false
  | _ => false

/-- Lines 103-112: the structured prompt of `vibe_call_function`. The
signature, docstring, and the `{args}`/`{kwargs}` tuple and dict formattings
are taken as already-rendered text. The Return Type line is appended only
when `return_type` is truthy, and the whole triple-quoted block is stripped. -/
def buildFunctionPrompt (func_signature docstring argsText kwargsText : List Char)
    (ann : Ann) : List Char :=
  let return_type := returnTypeOf ann
  let return_type_line :=
    if truthy return_type then "\nReturn Type: ".data ++ pyToString return_type
    else []
  stripL ("\n        Function Signature: ".data ++ func_signature
    ++ "\n        Docstring: ".data ++ docstring
    ++ "\n        Arguments: ".data ++ argsText ++ ", ".data ++ kwargsText
    ++ return_type_line ++ "\n        ".data)

/-- Lines 116-151 of `vibe_call_function`: the attempt loop. A transport
error (the `except` branch) backs off when further attempts remain and
continues. A returned response is stripped; with `return_type` equal to
Python `None` (line 139, `is None`) the raw text is returned at once;
otherwise the text is coerced and checked, a match is returned at once, and
a mismatch backs off and continues. Running out of iterations models
falling through the loop to the `raise` of line 153. -/
def vibeCallAux (cfg : VibeCheckConfig) (oracle : ℕ → RoundTrip)
    (return_type : PyVal) (total : ℕ) : ℕ → ℕ → LoopOut PyVal
  | 0, _ => ⟨Except.error (VibeError.responseType (callFailMsg return_type)), [], 0⟩
  | fuel + 1, attempt =>
    match oracle attempt with
    | RoundTrip.err =>
      let rest := vibeCallAux cfg oracle return_type total fuel (attempt + 1)
      if attempt < total then
        ⟨rest.result, backoffDelay cfg attempt :: rest.sleeps, rest.attempts + 1⟩
      else
        ⟨rest.result, rest.sleeps, rest.attempts + 1⟩
    | RoundTrip.ok otext =>
      let raw_text := stripL (effText otext)
      if return_type = PyVal.pyNone then ⟨Except.ok (PyVal.pyStr raw_text), [], 1⟩
      else
        let value := maybe_coerce raw_text return_type
        if is_match value return_type then ⟨Except.ok value, [], 1⟩
        else
          let rest := vibeCallAux cfg oracle return_type total fuel (attempt + 1)
          if attempt < total then
            ⟨rest.result, backoffDelay cfg attempt :: rest.sleeps, rest.attempts + 1⟩
          else
            ⟨rest.result, rest.sleeps, rest.attempts + 1⟩

/-- `GeminiWrapper.vibe_call_function` (lines 81-153). The prompt is built
exactly as on lines 103-112 but, like the statement text, only reaches the
external client and the logs, so the loop itself never inspects it. -/
def vibe_call_function (cfg : VibeCheckConfig) (oracle : ℕ → RoundTrip)
    (func_signature docstring argsText kwargsText : List Char) (ann : Ann) :
    LoopOut PyVal :=
  let return_type := returnTypeOf ann
  let _prompt := buildFunctionPrompt func_signature docstring argsText kwargsText ann
  vibeCallAux cfg oracle return_type (totalTries cfg) (totalTries cfg) 1

/-! Per-attempt verdicts: the acceptance predicate of each operation,
extracted so that loop behavior can be reasoned about uniformly. -/

/-- Acceptance verdict of one statement-evaluation attempt: `none` for a
transport error or a response with no boolean, `some b` for acceptance. -/
def evalVerdict (resp : RoundTrip) : Option Bool :=
  match resp with
  | RoundTrip.err => none
  | RoundTrip.ok otext =>
    let output_text := stripL (lowerL (effText otext))
    if containsSub trueText output_text then some true
    else if containsSub falseText output_text then some false
    else none

/-- Acceptance verdict of one function-simulation attempt. -/
def callVerdict (return_type : PyVal) (resp : RoundTrip) : Option PyVal :=
  match resp with
  | RoundTrip.err => none
  | RoundTrip.ok otext =>
    let raw_text := stripL (effText otext)
    if return_type = PyVal.pyNone then some (PyVal.pyStr raw_text)
    else
      let value := maybe_coerce raw_text return_type
      if is_match value return_type then some value else none

/-- The shared Retry Controller shape: both loops, abstracted over the
per-attempt verdict and the exhaustion failure. -/
def loopSpec {α : Type} (cfg : VibeCheckConfig) (verdict : ℕ → Option α)
    (failMsg : VibeError) (total : ℕ) : ℕ → ℕ → LoopOut α
  | 0, _ => ⟨Except.error failMsg, [], 0⟩
  | fuel + 1, attempt =>
    match verdict attempt with
    | some v => ⟨Except.ok v, [], 1⟩
    | none =>
      let rest := loopSpec cfg verdict failMsg total fuel (attempt + 1)
      if attempt < total then
        ⟨rest.result, backoffDelay cfg attempt :: rest.sleeps, rest.attempts + 1⟩
      else
        ⟨rest.result, rest.sleeps, rest.attempts + 1⟩

/-! Bridge lemmas: each concrete loop is the shared Retry Controller shape
driven by its verdict. The transport-error branch and the semantic-rejection
branch of the source collapse to the same `none` verdict, which is exactly
the content of the error-absorption claims. -/

theorem vibeEvalAux_eq_loopSpec (cfg : VibeCheckConfig) (oracle : ℕ → RoundTrip)
    (total fuel attempt : ℕ) :
    vibeEvalAux cfg oracle total fuel attempt
      = loopSpec cfg (fun j => evalVerdict (oracle j))
          (VibeError.responseType evalFailMsg) total fuel attempt := by
  induction fuel generalizing attempt with
  | zero => rfl
  | succ fuel ih =>
    rw [vibeEvalAux, loopSpec]
    cases h : oracle attempt with
    | err => rw [ih]; simp [evalVerdict, h]
    | ok otext =>
      rw [ih]
      by_cases h1 : containsSub trueText (stripL (lowerL (effText otext))) = true
      · simp [evalVerdict, h, h1]
      · by_cases h2 : containsSub falseText (stripL (lowerL (effText otext))) = true
        · simp [evalVerdict, h, h1, h2]
        · simp [evalVerdict, h, h1, h2]

theorem vibeCallAux_eq_loopSpec (cfg : VibeCheckConfig) (oracle : ℕ → RoundTrip)
    (return_type : PyVal) (total fuel attempt : ℕ) :
    vibeCallAux cfg oracle return_type total fuel attempt
      = loopSpec cfg (fun j => callVerdict return_type (oracle j))
          (VibeError.responseType (callFailMsg return_type)) total fuel attempt := by
  induction fuel generalizing attempt with
  | zero => rfl
  | succ fuel ih =>
    rw [vibeCallAux, loopSpec]
    cases h : oracle attempt with
    | err => rw [ih]; simp [callVerdict, h]
    | ok otext =>
      rw [ih]
      by_cases h1 : return_type = PyVal.pyNone
      · simp [callVerdict, h, h1]
      · by_cases h2 : is_match (maybe_coerce (stripL (effText otext)) return_type)
            return_type = true
        · simp [callVerdict, h, h1, h2]
        · simp [callVerdict, h, h1, h2]

theorem vibe_eval_statement_eq (cfg : VibeCheckConfig) (oracle : ℕ → RoundTrip)
    (st : List Char) :
    vibe_eval_statement cfg oracle st
      = loopSpec cfg (fun j => evalVerdict (oracle j))
          (VibeError.responseType evalFailMsg) (totalTries cfg) (totalTries cfg) 1 :=
  vibeEvalAux_eq_loopSpec cfg oracle (totalTries cfg) (totalTries cfg) 1

theorem vibe_call_function_eq (cfg : VibeCheckConfig) (oracle : ℕ → RoundTrip)
    (func_signature docstring argsText kwargsText : List Char) (ann : Ann) :
    vibe_call_function cfg oracle func_signature docstring argsText kwargsText ann
      = loopSpec cfg (fun j => callVerdict (returnTypeOf ann) (oracle j))
          (VibeError.responseType (callFailMsg (returnTypeOf ann)))
          (totalTries cfg) (totalTries cfg) 1 :=
  vibeCallAux_eq_loopSpec cfg oracle (returnTypeOf ann) (totalTries cfg) (totalTries cfg) 1

/-! Generic lemmas about the Retry Controller shape. -/

theorem loopSpec_attempts_le {α : Type} (cfg : VibeCheckConfig)
    (verdict : ℕ → Option α) (failMsg : VibeError) (total : ℕ) :
    ∀ fuel attempt, (loopSpec cfg verdict failMsg total fuel attempt).attempts ≤ fuel := by
  intro fuel
  induction fuel with
  | zero => intro attempt; simp [loopSpec]
  | succ fuel ih =>
    intro attempt
    rw [loopSpec]
    cases h : verdict attempt with
    | some v => simp
    | none =>
      by_cases hlt : attempt < total
      · simpa [hlt] using ih (attempt + 1)
      · simpa [hlt] using ih (attempt + 1)

theorem loopSpec_allNone {α : Type} (cfg : VibeCheckConfig)
    (verdict : ℕ → Option α) (failMsg : VibeError) (total : ℕ)
    (hnone : ∀ j, verdict j = none) :
    ∀ fuel attempt, attempt + fuel = total + 1 →
      loopSpec cfg verdict failMsg total fuel attempt
        = ⟨Except.error failMsg,
           (List.range (fuel - 1)).map (fun m => backoffDelay cfg (attempt + m)),
           fuel⟩ := by
  intro fuel
  induction fuel with
  | zero => intro attempt _; simp [loopSpec]
  | succ fuel ih =>
    intro attempt hfi
    rw [loopSpec, hnone attempt]
    cases fuel with
    | zero =>
      have hnlt : ¬ attempt < total := by omega
      simp [hnlt, loopSpec]
    | succ f =>
      have hlt : attempt < total := by omega
      have hrec := ih (attempt + 1) (by omega)
      simp only [hrec, hlt, if_true]
      refine congrArg₂ (fun s n => LoopOut.mk (Except.error failMsg) s n) ?_ (by omega)
      have : f + 1 + 1 - 1 = f + 1 := by omega
      rw [this]
      have : f + 1 - 1 = f := by omega
      rw [this]
      rw [List.range_succ_eq_map, List.map_cons, List.map_map]
      refine congrArg₂ List.cons (by simp) ?_
      refine List.map_congr_left ?_
      intro m _
      show backoffDelay cfg (attempt + 1 + m) = backoffDelay cfg (attempt + Nat.succ m)
      congr 1
      omega

theorem loopSpec_firstAccept {α : Type} (cfg : VibeCheckConfig)
    (verdict : ℕ → Option α) (failMsg : VibeError) (total : ℕ) (k : ℕ) (b : α)
    (hacc : verdict k = some b) (hk : k ≤ total) :
    ∀ fuel attempt, attempt + fuel = total + 1 → attempt ≤ k →
      (∀ j, attempt ≤ j → j < k → verdict j = none) →
      loopSpec cfg verdict failMsg total fuel attempt
        = ⟨Except.ok b,
           (List.range (k - attempt)).map (fun m => backoffDelay cfg (attempt + m)),
           k - attempt + 1⟩ := by
  intro fuel
  induction fuel with
  | zero => intro attempt hfi hik _; omega
  | succ fuel ih =>
    intro attempt hfi hik hbet
    rw [loopSpec]
    rcases Nat.eq_or_lt_of_le hik with heq | hlt
    · subst heq
      rw [hacc]
      simp
    · rw [hbet attempt le_rfl hlt]
      have hlt2 : attempt < total := by omega
      have hrec := ih (attempt + 1) (by omega) (by omega)
        (fun j h1 h2 => hbet j (by omega) h2)
      simp only [hrec, hlt2, if_true]
      refine congrArg₂ (fun s n => LoopOut.mk (Except.ok b) s n) ?_ (by omega)
      have hki : k - attempt = (k - (attempt + 1)) + 1 := by omega
      rw [hki, List.range_succ_eq_map, List.map_cons, List.map_map]
      refine congrArg₂ List.cons (by simp) ?_
      refine List.map_congr_left ?_
      intro m _
      show backoffDelay cfg (attempt + 1 + m) = backoffDelay cfg (attempt + Nat.succ m)
      congr 1
      omega

theorem loopSpec_error_verdicts {α : Type} (cfg : VibeCheckConfig)
    (verdict : ℕ → Option α) (failMsg : VibeError) (total : ℕ) (e : VibeError) :
    ∀ fuel attempt,
      (loopSpec cfg verdict failMsg total fuel attempt).result = Except.error e →
      ∀ j, attempt ≤ j → j < attempt + fuel → verdict j = none := by
  intro fuel
  induction fuel with
  | zero => intro attempt _ j h1 h2; omega
  | succ fuel ih
  =>
    intro attempt herr j h1 h2
    rw [loopSpec] at herr
    cases h : verdict attempt with
    | some v => rw [h] at herr; simp at herr
    | none =>
      rcases Nat.eq_or_lt_of_le h1 with heq | hlt
      · exact heq ▸ h
      · rw [h] at herr
        by_cases hlt2 : attempt < total
        · simp only [hlt2, if_true] at herr
          exact ih (attempt + 1) herr j hlt (by omega)
        · simp only [hlt2, if_false] at herr
          exact ih (attempt + 1) herr j hlt (by omega)

/-! Substring and whitespace lemmas used to reason about the prompt. -/

theorem isPrefixB_append (s t : List Char) : isPrefixB s (s ++ t) = true := by
  induction s with
  | nil => rfl
  | cons c cs ih => simp [isPrefixB, ih]

theorem containsSub_of_prefixB (n h : List Char) (hp : isPrefixB n h = true) :
    containsSub n h = true := by
  cases h with
  | nil =>
    cases n with
    | nil => rfl
    | cons c cs => exact absurd hp (by simp [isPrefixB])
  | cons c r => simp [containsSub, hp]

theorem containsSub_cons (n : List Char) (c : Char) (r : List Char)
    (hc : containsSub n r = true) : containsSub n (c :: r) = true := by
  simp [containsSub, hc]

theorem containsSub_at (a n b : List Char) : containsSub n (a ++ (n ++ b)) = true := by
  induction a with
  | nil => simpa using containsSub_of_prefixB n (n ++ b) (isPrefixB_append n b)
  | cons c cs ih => simpa using containsSub_cons _ c _ ih

theorem dropWhile_append_pos (p : Char → Bool) (a b : List Char)
    (h : a.dropWhile p ≠ []) :
    (a ++ b).dropWhile p = a.dropWhile p ++ b := by
  induction a with
  | nil => exact absurd rfl h
  | cons c cs ih =>
    cases hc : p c with
    | true =>
      have h2 : cs.dropWhile p ≠ [] := by
        intro hnil
        exact h (by simp [List.dropWhile, hc, hnil])
      simp [List.dropWhile, hc, ih h2]
    | false => simp [List.dropWhile, hc]

theorem dropWhile_append_nil (p : Char → Bool) (a b : List Char)
    (h : a.dropWhile p = []) :
    (a ++ b).dropWhile p = b.dropWhile p := by
  induction a with
  | nil => simp
  | cons c cs ih =>
    cases hc : p c with
    | true =>
      have h2 : cs.dropWhile p = [] := by simpa [List.dropWhile, hc] using h
      simp [List.dropWhile, hc, ih h2]
    | false => simp [List.dropWhile, hc] at h

theorem dropWhile_eq_nil_of_all (p : Char → Bool) (l : List Char)
    (h : ∀ c ∈ l, p c = true) : l.dropWhile p = [] := by
  induction l with
  | nil => rfl
  | cons c cs ih =>
    simp [List.dropWhile, h c (by simp), ih (fun d hd => h d (by simp [hd]))]

theorem all_of_dropWhile_nil (p : Char → Bool) (l : List Char)
    (h : l.dropWhile p = []) : ∀ c ∈ l, p c = true := by
  induction l with
  | nil => intro c hc; simp at hc
  | cons d ds ih =>
    cases hd : p d with
    | false => simp [List.dropWhile, hd] at h
    | true =>
      intro c hc
      rcases List.mem_cons.mp hc with rfl | hc2
      · exact hd
      · exact ih (by simpa [List.dropWhile, hd] using h) c hc2

theorem dropWhile_head_not (p : Char → Bool) (l : List Char) (c : Char) (r : List Char)
    (h : l.dropWhile p = c :: r) : p c = false := by
  induction l with
  | nil => simp at h
  | cons d ds ih =>
    cases hd : p d with
    | true => exact ih (by simpa [List.dropWhile, hd] using h)
    | false =>
      have : d = c := by simpa [List.dropWhile, hd] using congrArg List.head? h
      exact this ▸ hd

theorem dropWhile_idem (p : Char → Bool) (l : List Char) :
    (l.dropWhile p).dropWhile p = l.dropWhile p := by
  cases h : l.dropWhile p with
  | nil => rfl
  | cons c r =>
    have hc := dropWhile_head_not p l c r h
    simp [List.dropWhile, hc]

theorem rstrip_decomp (s : List Char) :
    rstripL s ++ (s.reverse.takeWhile isSpaceC).reverse = s := by
  rw [rstripL, ← List.reverse_append, List.takeWhile_append_dropWhile,
    List.reverse_reverse]

/-- Structure of `str.strip` on a block `a ++ m ++ z` whose head part
contains non-whitespace, whose middle part ends in non-whitespace, and whose
tail is all whitespace: stripping keeps the middle intact. -/
theorem stripL_structure (a m z : List Char)
    (ha : a.dropWhile isSpaceC ≠ [])
    (hm : m.reverse.dropWhile isSpaceC = m.reverse)
    (hmne : m ≠ [])
    (hz : ∀ c ∈ z, isSpaceC c = true) :
    stripL (a ++ (m ++ z)) = a.dropWhile isSpaceC ++ m := by
  rw [stripL, dropWhile_append_pos isSpaceC a (m ++ z) ha,
    List.reverse_append, List.reverse_append, List.append_assoc,
    dropWhile_append_nil isSpaceC z.reverse _
      (dropWhile_eq_nil_of_all _ _ (fun c hc => hz c (List.mem_reverse.mp hc))),
    dropWhile_append_pos isSpaceC m.reverse _
      (by rw [hm]; simpa using hmne),
    hm, List.reverse_append, List.reverse_reverse, List.reverse_reverse]

/-! Structure theorems for the function-simulation prompt. -/

theorem headH_dropWhile (rest : List Char) :
    ("\n        Function Signature: ".data ++ rest).dropWhile isSpaceC
      = "Function Signature: ".data ++ rest := by
  rw [dropWhile_append_pos isSpaceC _ rest (by decide)]
  congr 1

theorem headH_ne_nil (rest : List Char) :
    ("\n        Function Signature: ".data ++ rest).dropWhile isSpaceC ≠ [] := by
  rw [headH_dropWhile]
  intro hnil
  rcases List.append_eq_nil.mp hnil with ⟨h1, _⟩
  exact absurd h1 (by decide)

/-- With a declared (truthy) return type from the tag set, the prompt is the
stripped block and ends with the Return Type line. -/
theorem buildFunctionPrompt_typed (sig doc argsT kwargsT : List Char) (t : TyTag) :
    buildFunctionPrompt sig doc argsT kwargsT (Ann.given (PyVal.pyType t))
      = "Function Signature: ".data ++ sig ++ "\n        Docstring: ".data ++ doc
        ++ "\n        Arguments: ".data ++ argsT ++ ", ".data ++ kwargsT
        ++ "\nReturn Type: ".data ++ pyToString (PyVal.pyType t) := by
  have key := stripL_structure
    ("\n        Function Signature: ".data ++ sig ++ "\n        Docstring: ".data ++ doc
      ++ "\n        Arguments: ".data ++ argsT ++ ", ".data ++ kwargsT)
    ("\nReturn Type: ".data ++ pyToString (PyVal.pyType t))
    "\n        ".data
    (headH_ne_nil _)
    (by cases t <;> decide)
    (by cases t <;> decide)
    (by decide)
  have h0 : buildFunctionPrompt sig doc argsT kwargsT (Ann.given (PyVal.pyType t))
      = stripL (("\n        Function Signature: ".data ++ sig ++ "\n        Docstring: ".data
          ++ doc ++ "\n        Arguments: ".data ++ argsT ++ ", ".data ++ kwargsT)
        ++ (("\nReturn Type: ".data ++ pyToString (PyVal.pyType t)) ++ "\n        ".data)) := by
    simp [buildFunctionPrompt, returnTypeOf, truthy, List.append_assoc]
  rw [h0, key]
  have ha2 : ("\n        Function Signature: ".data ++ sig ++ "\n        Docstring: ".data
      ++ doc ++ "\n        Arguments: ".data ++ argsT ++ ", ".data ++ kwargsT)
      = "\n        Function Signature: ".data ++ (sig ++ ("\n        Docstring: ".data
        ++ (doc ++ ("\n        Arguments: ".data ++ (argsT ++ (", ".data ++ kwargsT)))))) := by
    simp [List.append_assoc]
  rw [ha2, headH_dropWhile]
  simp [List.append_assoc]

/-- With no declared return type, the prompt is the same block with the
Return Type line omitted entirely: nothing stands between the rendered
keyword arguments and the (stripped) end of the prompt. -/
theorem buildFunctionPrompt_empty (sig doc argsT kwargsT : List Char) :
    buildFunctionPrompt sig doc argsT kwargsT Ann.empty
      = "Function Signature: ".data ++ sig ++ "\n        Docstring: ".data ++ doc
        ++ "\n        Arguments: ".data ++ rstripL (argsT ++ ", ".data ++ kwargsT) := by
  have hx := rstrip_decomp (argsT ++ ", ".data ++ kwargsT)
  have hm : (rstripL (argsT ++ ", ".data ++ kwargsT)).reverse.dropWhile isSpaceC
      = (rstripL (argsT ++ ", ".data ++ kwargsT)).reverse := by
    rw [rstripL, List.reverse_reverse]
    exact dropWhile_idem _ _
  have hmne : rstripL (argsT ++ ", ".data ++ kwargsT) ≠ [] := by
    intro h
    rw [rstripL] at h
    have h2 : (argsT ++ ", ".data ++ kwargsT).reverse.dropWhile isSpaceC = [] := by
      simpa using congrArg List.reverse h
    have hall := all_of_dropWhile_nil _ _ h2
    have hcomma : (',' : Char) ∈ (argsT ++ ", ".data ++ kwargsT).reverse := by
      rw [List.mem_reverse]
      have hd : (',' : Char) ∈ ", ".data := by decide
      exact List.mem_append_left _ (List.mem_append_right _ hd)
    exact absurd (hall ',' hcomma) (by decide)
  have hz : ∀ c ∈ ((argsT ++ ", ".data ++ kwargsT).reverse.takeWhile isSpaceC).reverse
      ++ "\n        ".data, isSpaceC c = true := by
    intro c hc
    rcases List.mem_append.mp hc with h1 | h2
    · exact List.mem_takeWhile_imp (List.mem_reverse.mp h1)
    · have hW : ∀ d ∈ "\n        ".data, isSpaceC d = true := by decide
      exact hW c h2
  have key := stripL_structure
    ("\n        Function Signature: ".data ++ sig ++ "\n        Docstring: ".data ++ doc
      ++ "\n        Arguments: ".data)
    (rstripL (argsT ++ ", ".data ++ kwargsT))
    (((argsT ++ ", ".data ++ kwargsT).reverse.takeWhile isSpaceC).reverse ++ "\n        ".data)
    (headH_ne_nil _) hm hmne hz
  have h1 : buildFunctionPrompt sig doc argsT kwargsT Ann.empty
      = stripL (("\n        Function Signature: ".data ++ sig ++ "\n        Docstring: ".data
          ++ doc ++ "\n        Arguments: ".data)
        ++ ((argsT ++ ", ".data ++ kwargsT) ++ "\n        ".data)) := by
    simp [buildFunctionPrompt, returnTypeOf, truthy, List.append_assoc]
  have harg :
      ("\n        Function Signature: ".data ++ sig ++ "\n        Docstring: ".data ++ doc
        ++ "\n        Arguments: ".data)
        ++ ((argsT ++ ", ".data ++ kwargsT) ++ "\n        ".data)
      = ("\n        Function Signature: ".data ++ sig ++ "\n        Docstring: ".data ++ doc
        ++ "\n        Arguments: ".data)
        ++ (rstripL (argsT ++ ", ".data ++ kwargsT)
            ++ (((argsT ++ ", ".data ++ kwargsT).reverse.takeWhile isSpaceC).reverse
                ++ "\n        ".data)) := by
    conv_rhs => rw [← List.append_assoc (rstripL (argsT ++ ", ".data ++ kwargsT))
      ((argsT ++ ", ".data ++ kwargsT).reverse.takeWhile isSpaceC).reverse
      "\n        ".data, hx]
  rw [h1, harg, key]
  have ha2 : ("\n        Function Signature: ".data ++ sig ++ "\n        Docstring: ".data
      ++ doc ++ "\n        Arguments: ".data)
      = "\n        Function Signature: ".data ++ (sig ++ ("\n        Docstring: ".data
        ++ (doc ++ "\n        Arguments: ".data))) := by
    simp [List.append_assoc]
  rw [ha2, headH_dropWhile]
  simp [List.append_assoc]

/-! Behavior of the two public operations, derived from the loop lemmas. -/

theorem totalTries_pos (cfg : VibeCheckConfig) : 1 ≤ totalTries cfg := by
  rw [totalTries]
  omega

/-- A run whose every attempt is rejected: exhaustion failure, one backoff
per non-final attempt, `totalTries` attempts. -/
theorem vibe_eval_allNone (cfg : VibeCheckConfig) (oracle : ℕ → RoundTrip)
    (st : List Char) (h : ∀ j, evalVerdict (oracle j) = none) :
    vibe_eval_statement cfg oracle st
      = ⟨Except.error (VibeError.responseType evalFailMsg),
         (List.range (totalTries cfg - 1)).map (fun m => backoffDelay cfg (1 + m)),
         totalTries cfg⟩ := by
  rw [vibe_eval_statement_eq]
  exact loopSpec_allNone cfg _ _ _ h (totalTries cfg) 1 (by omega)

theorem vibe_call_allNone (cfg : VibeCheckConfig) (oracle : ℕ → RoundTrip)
    (func_signature docstring argsT kwargsT : List Char) (ann : Ann)
    (h : ∀ j, callVerdict (returnTypeOf ann) (oracle j) = none) :
    vibe_call_function cfg oracle func_signature docstring argsT kwargsT ann
      = ⟨Except.error (VibeError.responseType (callFailMsg (returnTypeOf ann))),
         (List.range (totalTries cfg - 1)).map (fun m => backoffDelay cfg (1 + m)),
         totalTries cfg⟩ := by
  rw [vibe_call_function_eq]
  exact loopSpec_allNone cfg _ _ _ h (totalTries cfg) 1 (by omega)

/-- A run whose first accepted attempt is `k`: the accepted value is
returned at once after `k` attempts, with one backoff per rejected attempt. -/
theorem vibe_eval_firstAccept (cfg : VibeCheckConfig) (oracle : ℕ → RoundTrip)
    (st : List Char) (k : ℕ) (b : Bool)
    (hacc : evalVerdict (oracle k) = some b)
    (h1 : 1 ≤ k) (hk : k ≤ totalTries cfg)
    (hbet : ∀ j, 1 ≤ j → j < k → evalVerdict (oracle j) = none) :
    vibe_eval_statement cfg oracle st
      = ⟨Except.ok b,
         (List.range (k - 1)).map (fun m => backoffDelay cfg (1 + m)), k⟩ := by
  rw [vibe_eval_statement_eq]
  have := loopSpec_firstAccept cfg (fun j => evalVerdict (oracle j))
    (VibeError.responseType evalFailMsg) (totalTries cfg) k b hacc hk
    (totalTries cfg) 1 (by omega) h1 hbet
  rw [this]
  have hka : k - 1 + 1 = k := by omega
  rw [hka]

theorem vibe_call_firstAccept (cfg : VibeCheckConfig) (oracle : ℕ → RoundTrip)
    (func_signature docstring argsT kwargsT : List Char) (ann : Ann)
    (k : ℕ) (v : PyVal)
    (hacc : callVerdict (returnTypeOf ann) (oracle k) = some v)
    (h1 : 1 ≤ k) (hk : k ≤ totalTries cfg)
    (hbet : ∀ j, 1 ≤ j → j < k → callVerdict (returnTypeOf ann) (oracle j) = none) :
    vibe_call_function cfg oracle func_signature docstring argsT kwargsT ann
      = ⟨Except.ok v,
         (List.range (k - 1)).map (fun m => backoffDelay cfg (1 + m)), k⟩ := by
  rw [vibe_call_function_eq]
  have := loopSpec_firstAccept cfg (fun j => callVerdict (returnTypeOf ann) (oracle j))
    (VibeError.responseType (callFailMsg (returnTypeOf ann))) (totalTries cfg) k v hacc hk
    (totalTries cfg) 1 (by omega) h1 hbet
  rw [this]
  have hka : k - 1 + 1 = k := by omega
  rw [hka]

/-! Claim theorems. -/

/-- C1: both public operations make at most max(num_tries, max_retries + 1)
round-trip attempts; the total is fixed once before the loop, so a run whose
attempts are all rejected performs exactly that many. With num_tries = 1,
max_retries = 3 both operations make 4 attempts; with num_tries = 5,
max_retries = 1 they make 5. -/
theorem c1_total_attempts (cfg : VibeCheckConfig) (oracle : ℕ → RoundTrip)
    (st sig doc argsT kwargsT : List Char) (ann : Ann) :
    (vibe_eval_statement cfg oracle st).attempts
        ≤ max cfg.num_tries (cfg.max_retries + 1)
  ∧ (vibe_call_function cfg oracle sig doc argsT kwargsT ann).attempts
        ≤ max cfg.num_tries (cfg.max_retries + 1)
  ∧ (vibe_eval_statement ⟨1, 3, 1, 1⟩ (fun _ => RoundTrip.err) st).attempts = 4
  ∧ (vibe_eval_statement ⟨5, 1, 1, 1⟩ (fun _ => RoundTrip.err) st).attempts = 5
  ∧ (vibe_call_function ⟨1, 3, 1, 1⟩ (fun _ => RoundTrip.err)
        sig doc argsT kwargsT ann).attempts = 4
  ∧ (vibe_call_function ⟨5, 1, 1, 1⟩ (fun _ => RoundTrip.err)
        sig doc argsT kwargsT ann).attempts = 5 := by
  refine ⟨?_, ?_, ?_, ?_, ?_, ?_⟩
  · rw [vibe_eval_statement_eq]
    exact loopSpec_attempts_le cfg _ _ _ (totalTries cfg) 1
  · rw [vibe_call_function_eq]
    exact loopSpec_attempts_le cfg _ _ _ (totalTries cfg) 1
  · rw [vibe_eval_allNone ⟨1, 3, 1, 1⟩ (fun _ => RoundTrip.err) st (fun j => rfl)]
    rfl
  · rw [vibe_eval_allNone ⟨5, 1, 1, 1⟩ (fun _ => RoundTrip.err) st (fun j => rfl)]
    rfl
  · rw [vibe_call_allNone ⟨1, 3, 1, 1⟩ (fun _ => RoundTrip.err)
      sig doc argsT kwargsT ann (fun j => rfl)]
    rfl
  · rw [vibe_call_allNone ⟨5, 1, 1, 1⟩ (fun _ => RoundTrip.err)
      sig doc argsT kwargsT ann (fun j => rfl)]
    rfl

/-- C2 counterexample: when statement evaluation exhausts its attempts, the
raised failure's message is the fixed text "Unable to get a valid response
from the Gemini API.", which does not describe the expected boolean — it
does not even contain the substring "bool" (or "Bool"). -/
theorem c2_eval_message_lacks_boolean :
    (vibe_eval_statement ⟨1, 0, 1, 1⟩ (fun _ => RoundTrip.err) []).result
      = Except.error (VibeError.responseType evalFailMsg)
  ∧ containsSub "bool".data evalFailMsg = false
  ∧ containsSub "Bool".data evalFailMsg = false := by
  refine ⟨?_, by decide, by decide⟩
  rw [vibe_eval_allNone ⟨1, 0, 1, 1⟩ (fun _ => RoundTrip.err) [] (fun j => rfl)]

/-- C2 amended: exhausting every attempt raises VibeResponseTypeException in
both operations; the function-simulation message names the declared return
type (its repr is a substring of the message), while the
statement-evaluation message is fixed generic text that does not mention the
expected boolean. -/
theorem c2_exhaustion_failure (cfg : VibeCheckConfig) (o1 o2 : ℕ → RoundTrip)
    (st sig doc argsT kwargsT : List Char) (t : TyTag)
    (h1 : ∀ j, evalVerdict (o1 j) = none)
    (h2 : ∀ j, callVerdict (PyVal.pyType t) (o2 j) = none) :
    (vibe_eval_statement cfg o1 st).result
        = Except.error (VibeError.responseType evalFailMsg)
  ∧ (vibe_call_function cfg o2 sig doc argsT kwargsT
        (Ann.given (PyVal.pyType t))).result
        = Except.error (VibeError.responseType (callFailMsg (PyVal.pyType t)))
  ∧ containsSub (pyRepr (PyVal.pyType t)) (callFailMsg (PyVal.pyType t)) = true := by
  refine ⟨?_, ?_, ?_⟩
  · rw [vibe_eval_allNone cfg o1 st h1]
  · rw [vibe_call_allNone cfg o2 sig doc argsT kwargsT (Ann.given (PyVal.pyType t)) h2]
    rfl
  · simp only [callFailMsg, List.append_assoc]
    exact containsSub_at _ _ _

theorem c2_exhaustion_failure_witness :
    (vibe_eval_statement ⟨2, 0, 1, 1⟩ (fun _ => RoundTrip.err) []).result
        = Except.error (VibeError.responseType evalFailMsg)
  ∧ (vibe_call_function ⟨2, 0, 1, 1⟩ (fun _ => RoundTrip.ok (some "forty-two".data))
        [] [] [] [] (Ann.given (PyVal.pyType TyTag.int))).result
        = Except.error (VibeError.responseType (callFailMsg (PyVal.pyType TyTag.int)))
  ∧ containsSub (pyRepr (PyVal.pyType TyTag.int)) (callFailMsg (PyVal.pyType TyTag.int))
        = true := by
  have hrej : callVerdict (PyVal.pyType TyTag.int)
      (RoundTrip.ok (some "forty-two".data)) = none := by decide
  exact c2_exhaustion_failure ⟨2, 0, 1, 1⟩ (fun _ => RoundTrip.err)
    (fun _ => RoundTrip.ok (some "forty-two".data)) [] [] [] [] [] TyTag.int
    (fun j => rfl) (fun _ => hrej)

/-- C3: the response text is lower-cased and stripped; if it contains
"true" the operation returns True — this check runs first, so True wins when
both substrings appear — otherwise containing "false" returns False, and
otherwise the attempt is rejected. The spec's four examples behave exactly
as stated. -/
theorem c3_boolean_interpretation (cfg : VibeCheckConfig) (st txt : List Char) :
    (containsSub trueText (stripL (lowerL txt)) = true →
      (vibe_eval_statement cfg (fun _ => RoundTrip.ok (some txt)) st).result
        = Except.ok true)
  ∧ (containsSub trueText (stripL (lowerL txt)) = false →
     containsSub falseText (stripL (lowerL txt)) = true →
      (vibe_eval_statement cfg (fun _ => RoundTrip.ok (some txt)) st).result
        = Except.ok false)
  ∧ (containsSub trueText (stripL (lowerL txt)) = false →
     containsSub falseText (stripL (lowerL txt)) = false →
      evalVerdict (RoundTrip.ok (some txt)) = none)
  ∧ evalVerdict (RoundTrip.ok (some "Yes, True.".data)) = some true
  ∧ evalVerdict (RoundTrip.ok (some "I believe this is false.".data)) = some false
  ∧ evalVerdict (RoundTrip.ok (some "unsure".data)) = none
  ∧ evalVerdict (RoundTrip.ok (some "true and false are both possible".data))
        = some true := by
  refine ⟨?_, ?_, ?_, by decide, by decide, by decide, by decide⟩
  · intro h
    have hacc : evalVerdict (RoundTrip.ok (some txt)) = some true := by
      simp [evalVerdict, effText_some, h]
    rw [vibe_eval_firstAccept cfg _ st 1 true hacc le_rfl (totalTries_pos cfg)
      (fun j hj1 hj2 => absurd hj2 (by omega))]
  · intro h1 h2
    have hacc : evalVerdict (RoundTrip.ok (some txt)) = some false := by
      simp [evalVerdict, effText_some, h1, h2]
    rw [vibe_eval_firstAccept cfg _ st 1 false hacc le_rfl (totalTries_pos cfg)
      (fun j hj1 hj2 => absurd hj2 (by omega))]
  · intro h1 h2
    simp [evalVerdict, effText_some, h1, h2]

theorem c3_boolean_interpretation_witness :
    (vibe_eval_statement ⟨1, 0, 1, 1⟩
        (fun _ => RoundTrip.ok (some "Yes, True.".data)) []).result
      = Except.ok true :=
  (c3_boolean_interpretation ⟨1, 0, 1, 1⟩ [] "Yes, True.".data).1 (by decide)

/-- C4: every rejected attempt i with i < total backs off for exactly
min(backoff_base * 2^(i-1), backoff_max) seconds before the next attempt and
the final attempt never sleeps: a fully rejected run sleeps once per
non-final attempt at exactly those delays, a run first accepted at attempt k
sleeps only for attempts 1..k-1, and with backoff_base = 0.5,
backoff_max = 4 the delays for attempts 1..5 are 0.5, 1, 2, 4, 4. -/
theorem c4_backoff_schedule (cfg : VibeCheckConfig) (o1 o2 : ℕ → RoundTrip)
    (st : List Char) (k : ℕ) (b : Bool) :
    ((∀ j, evalVerdict (o1 j) = none) →
      (vibe_eval_statement cfg o1 st).sleeps
        = (List.range (totalTries cfg - 1)).map (fun m => backoffDelay cfg (1 + m)))
  ∧ (evalVerdict (o2 k) = some b → 1 ≤ k → k ≤ totalTries cfg →
      (∀ j, 1 ≤ j → j < k → evalVerdict (o2 j) = none) →
      (vibe_eval_statement cfg o2 st).sleeps
        = (List.range (k - 1)).map (fun m => backoffDelay cfg (1 + m)))
  ∧ (List.range 5).map (fun m => backoffDelay ⟨6, 0, 1/2, 4⟩ (1 + m))
        = [1/2, 1, 2, 4, 4] := by
  refine ⟨?_, ?_, ?_⟩
  · intro h
    rw [vibe_eval_allNone cfg o1 st h]
  · intro hacc h1 hk hbet
    rw [vibe_eval_firstAccept cfg o2 st k b hacc h1 hk hbet]
  · show [backoffDelay ⟨6, 0, 1/2, 4⟩ 1, backoffDelay ⟨6, 0, 1/2, 4⟩ 2,
      backoffDelay ⟨6, 0, 1/2, 4⟩ 3, backoffDelay ⟨6, 0, 1/2, 4⟩ 4,
      backoffDelay ⟨6, 0, 1/2, 4⟩ 5] = [1/2, 1, 2, 4, 4]
    norm_num [backoffDelay, min_def]

theorem c4_backoff_schedule_witness :
    (vibe_eval_statement ⟨3, 0, 1, 4⟩ (fun _ => RoundTrip.err) []).sleeps
      = (List.range 2).map (fun m => backoffDelay ⟨3, 0, 1, 4⟩ (1 + m)) :=
  (c4_backoff_schedule ⟨3, 0, 1, 4⟩ (fun _ => RoundTrip.err) (fun _ => RoundTrip.err)
    [] 1 true).1 (fun _ => rfl)

/-- C5: a transport error raised by the round trip is absorbed, never
escapes before exhaustion and never aborts the loop early: swapping a
failing round trip for one returning semantically rejected text leaves the
whole run (result, sleeps and attempt count) unchanged in both operations,
and a transport error on every attempt still performs every configured
attempt before ending in the typed exhaustion failure. -/
theorem c5_transport_error_absorbed (cfg : VibeCheckConfig)
    (o1 o2 : ℕ → RoundTrip) (st sig doc argsT kwargsT : List Char) (ann : Ann)
    (txt : List Char) (j : ℕ)
    (hrej : evalVerdict (RoundTrip.ok (some txt)) = none)
    (hrejc : callVerdict (returnTypeOf ann) (RoundTrip.ok (some txt)) = none)
    (herr1 : o1 j = RoundTrip.err) (herr2 : o2 j = RoundTrip.err) :
    vibe_eval_statement cfg (Function.update o1 j (RoundTrip.ok (some txt))) st
        = vibe_eval_statement cfg o1 st
  ∧ vibe_call_function cfg (Function.update o2 j (RoundTrip.ok (some txt)))
        sig doc argsT kwargsT ann
        = vibe_call_function cfg o2 sig doc argsT kwargsT ann
  ∧ (vibe_eval_statement cfg (fun _ => RoundTrip.err) st).attempts = totalTries cfg
  ∧ (vibe_eval_statement cfg (fun _ => RoundTrip.err) st).result
        = Except.error (VibeError.responseType evalFailMsg) := by
  refine ⟨?_, ?_, ?_, ?_⟩
  · have hv : (fun i => evalVerdict (Function.update o1 j (RoundTrip.ok (some txt)) i))
        = fun i => evalVerdict (o1 i) := by
      funext i
      by_cases hij : i = j
      · subst hij
        rw [Function.update_same, herr1, hrej]
        rfl
      · rw [Function.update_noteq hij]
    rw [vibe_eval_statement_eq, vibe_eval_statement_eq, hv]
  · have hv : (fun i => callVerdict (returnTypeOf ann)
          (Function.update o2 j (RoundTrip.ok (some txt)) i))
        = fun i => callVerdict (returnTypeOf ann) (o2 i) := by
      funext i
      by_cases hij : i = j
      · subst hij
        rw [Function.update_same, herr2, hrejc]
        rfl
      · rw [Function.update_noteq hij]
    rw [vibe_call_function_eq, vibe_call_function_eq, hv]
  · rw [vibe_eval_allNone cfg (fun _ => RoundTrip.err) st (fun i => rfl)]
  · rw [vibe_eval_allNone cfg (fun _ => RoundTrip.err) st (fun i => rfl)]

theorem c5_transport_error_absorbed_witness :
    vibe_eval_statement ⟨2, 0, 1, 1⟩
        (Function.update (fun _ => RoundTrip.err) 1 (RoundTrip.ok (some "no idea".data))) []
      = vibe_eval_statement ⟨2, 0, 1, 1⟩ (fun _ => RoundTrip.err) [] :=
  (c5_transport_error_absorbed ⟨2, 0, 1, 1⟩ (fun _ => RoundTrip.err)
    (fun _ => RoundTrip.err) [] [] [] [] [] (Ann.given (PyVal.pyType TyTag.int))
    "no idea".data 1 (by decide) (by decide) rfl rfl).1

/-- C6: with no declared return type, the first successful round trip ends
the call immediately with the stripped raw text accepted verbatim — whatever
its content, no coercion and no type check — and such a call can only fail
when every configured attempt's round trip raised. -/
theorem c6_no_return_type_raw_text (cfg : VibeCheckConfig) (oracle : ℕ → RoundTrip)
    (sig doc argsT kwargsT txt : List Char) (k : ℕ) :
    (1 ≤ k → k ≤ totalTries cfg → oracle k = RoundTrip.ok (some txt) →
      (∀ i, 1 ≤ i → i < k → oracle i = RoundTrip.err) →
      (vibe_call_function cfg oracle sig doc argsT kwargsT Ann.empty).result
        = Except.ok (PyVal.pyStr (stripL txt)))
  ∧ (∀ e, (vibe_call_function cfg oracle sig doc argsT kwargsT Ann.empty).result
        = Except.error e →
      ∀ i, 1 ≤ i → i ≤ totalTries cfg → oracle i = RoundTrip.err) := by
  constructor
  · intro h1 hk hok hbet
    have hacc : callVerdict (returnTypeOf Ann.empty) (oracle k)
        = some (PyVal.pyStr (stripL txt)) := by
      rw [hok]
      simp [callVerdict, returnTypeOf, effText_some]
    rw [vibe_call_firstAccept cfg oracle sig doc argsT kwargsT Ann.empty k _ hacc h1 hk
      (fun i hi1 hi2 => by rw [hbet i hi1 hi2]; rfl)]
  · intro e herr i hi1 hi2
    rw [vibe_call_function_eq] at herr
    have hv := loopSpec_error_verdicts cfg _ _ _ e (totalTries cfg) 1 herr i hi1 (by omega)
    cases ho : oracle i with
    | err => rfl
    | ok otext =>
      rw [ho] at hv
      simp [callVerdict, returnTypeOf] at hv

theorem c6_no_return_type_raw_text_witness :
    (vibe_call_function ⟨2, 0, 1, 1⟩
        (fun i => if i = 1 then RoundTrip.err
                  else RoundTrip.ok (some "  anything at all  ".data))
        [] [] [] [] Ann.empty).result
      = Except.ok (PyVal.pyStr (stripL "  anything at all  ".data)) :=
  (c6_no_return_type_raw_text ⟨2, 0, 1, 1⟩
    (fun i => if i = 1 then RoundTrip.err
              else RoundTrip.ok (some "  anything at all  ".data))
    [] [] [] [] "  anything at all  ".data 2).1
    (by decide) (by decide) (by decide)
    (fun i hi1 hi2 => by
      have hi : i = 1 := by omega
      subst hi
      rfl)

/-- C7: with a declared return type, the stripped raw text is first coerced
toward that type and the coerced value is then checked against it; a value
passing the check is returned immediately (after exactly the attempts made so
far), while a failed coercion or check is no hard error but a rejection that
permits a retry. With integer return type, "42" coerces to the value 42 and
"forty-two" is rejected as a type mismatch; a two-attempt run receiving
"forty-two" then "42" retries and returns 42 on the second attempt. -/
theorem c7_typed_coercion (cfg : VibeCheckConfig) (oracle : ℕ → RoundTrip)
    (sig doc argsT kwargsT txt : List Char) (t : TyTag) (k : ℕ) :
    (1 ≤ k → k ≤ totalTries cfg → oracle k = RoundTrip.ok (some txt) →
      (∀ i, 1 ≤ i → i < k → oracle i = RoundTrip.err) →
      is_match (maybe_coerce (stripL txt) (PyVal.pyType t)) (PyVal.pyType t) = true →
      (vibe_call_function cfg oracle sig doc argsT kwargsT
          (Ann.given (PyVal.pyType t))).result
        = Except.ok (maybe_coerce (stripL txt) (PyVal.pyType t))
      ∧ (vibe_call_function cfg oracle sig doc argsT kwargsT
          (Ann.given (PyVal.pyType t))).attempts = k)
  ∧ (is_match (maybe_coerce (stripL txt) (PyVal.pyType t)) (PyVal.pyType t) = false →
      callVerdict (PyVal.pyType t) (RoundTrip.ok (some txt)) = none)
  ∧ maybe_coerce "42".data (PyVal.pyType TyTag.int) = PyVal.pyInt 42
  ∧ is_match (maybe_coerce "forty-two".data (PyVal.pyType TyTag.int))
        (PyVal.pyType TyTag.int) = false
  ∧ (vibe_call_function ⟨2, 0, 1, 1⟩
        (fun i => if i = 1 then RoundTrip.ok (some "forty-two".data)
                  else RoundTrip.ok (some "42".data))
        sig doc argsT kwargsT (Ann.given (PyVal.pyType TyTag.int))).result
      = Except.ok (PyVal.pyInt 42)
  ∧ (vibe_call_function ⟨2, 0, 1, 1⟩
        (fun i => if i = 1 then RoundTrip.ok (some "forty-two".data)
                  else RoundTrip.ok (some "42".data))
        sig doc argsT kwargsT (Ann.given (PyVal.pyType TyTag.int))).attempts = 2 := by
  have hrun2 := vibe_call_firstAccept ⟨2, 0, 1, 1⟩
    (fun i => if i = 1 then RoundTrip.ok (some "forty-two".data)
              else RoundTrip.ok (some "42".data))
    sig doc argsT kwargsT (Ann.given (PyVal.pyType TyTag.int)) 2 (PyVal.pyInt 42)
    (by decide) (by decide) (by decide)
    (fun i hi1 hi2 => by
      have hi : i = 1 := by omega
      subst hi
      decide)
  refine ⟨?_, ?_, by decide, by decide, ?_, ?_⟩
  · intro h1 hk hok hbet hmatch
    have hacc : callVerdict (returnTypeOf (Ann.given (PyVal.pyType t))) (oracle k)
        = some (maybe_coerce (stripL txt) (PyVal.pyType t)) := by
      rw [hok]
      simp [callVerdict, returnTypeOf, effText_some, hmatch]
    rw [vibe_call_firstAccept cfg oracle sig doc argsT kwargsT
      (Ann.given (PyVal.pyType t)) k _ hacc h1 hk
      (fun i hi1 hi2 => by rw [hbet i hi1 hi2]; rfl)]
    exact ⟨rfl, rfl⟩
  · intro hnom
    simp [callVerdict, effText_some, hnom]
  · rw [hrun2]
  · rw [hrun2]

theorem c7_typed_coercion_witness :
    (vibe_call_function ⟨1, 0, 1, 1⟩ (fun _ => RoundTrip.ok (some "42".data))
        [] [] [] [] (Ann.given (PyVal.pyType TyTag.int))).result
      = Except.ok (PyVal.pyInt 42) := by
  have h := (c7_typed_coercion ⟨1, 0, 1, 1⟩ (fun _ => RoundTrip.ok (some "42".data))
    [] [] [] [] "42".data TyTag.int 1).1
    (by decide) (by decide) rfl (fun i hi1 hi2 => absurd hi2 (by omega)) (by decide)
  exact h.1.trans (congrArg Except.ok (by decide))

/-- C8: the prompt sent to the backend is the stripped block holding the
signature's textual form, the docstring, and the rendered positional and
keyword arguments, and it ends with a line naming the return type exactly
when one is declared; without one the Return Type line is omitted entirely
(the prompt is the same block simply ending after the arguments), as the
fully computed example prompts show. -/
theorem c8_prompt_structure (sig doc argsT kwargsT : List Char) (t : TyTag) :
    buildFunctionPrompt sig doc argsT kwargsT (Ann.given (PyVal.pyType t))
      = "Function Signature: ".data ++ sig ++ "\n        Docstring: ".data ++ doc
        ++ "\n        Arguments: ".data ++ argsT ++ ", ".data ++ kwargsT
        ++ "\nReturn Type: ".data ++ pyToString (PyVal.pyType t)
  ∧ isSuffixB ("\nReturn Type: ".data ++ pyToString (PyVal.pyType t))
        (buildFunctionPrompt sig doc argsT kwargsT (Ann.given (PyVal.pyType t))) = true
  ∧ containsSub sig
        (buildFunctionPrompt sig doc argsT kwargsT (Ann.given (PyVal.pyType t))) = true
  ∧ containsSub doc
        (buildFunctionPrompt sig doc argsT kwargsT (Ann.given (PyVal.pyType t))) = true
  ∧ containsSub argsT
        (buildFunctionPrompt sig doc argsT kwargsT (Ann.given (PyVal.pyType t))) = true
  ∧ containsSub kwargsT
        (buildFunctionPrompt sig doc argsT kwargsT (Ann.given (PyVal.pyType t))) = true
  ∧ buildFunctionPrompt sig doc argsT kwargsT Ann.empty
      = "Function Signature: ".data ++ sig ++ "\n        Docstring: ".data ++ doc
        ++ "\n        Arguments: ".data ++ rstripL (argsT ++ ", ".data ++ kwargsT)
  ∧ containsSub "Return Type".data
        (buildFunctionPrompt "f(x: int) -> int".data "Doc.".data "(3,)".data
          "\x7b\x7d".data Ann.empty) = false
  ∧ buildFunctionPrompt "f(x: int) -> int".data "Doc.".data "(3,)".data
        "\x7b\x7d".data (Ann.given (PyVal.pyType TyTag.int))
      = ("Function Signature: f(x: int) -> int\n        Docstring: Doc.\n        Arguments: (3,), \x7b\x7d\nReturn Type: <class \x27int\x27>").data := by
  have hT := buildFunctionPrompt_typed sig doc argsT kwargsT t
  refine ⟨hT, ?_, ?_, ?_, ?_, ?_, buildFunctionPrompt_empty sig doc argsT kwargsT,
    by decide, by decide⟩
  · rw [hT, isSuffixB]
    have e : ("Function Signature: ".data ++ sig ++ "\n        Docstring: ".data ++ doc
          ++ "\n        Arguments: ".data ++ argsT ++ ", ".data ++ kwargsT
          ++ "\nReturn Type: ".data ++ pyToString (PyVal.pyType t)).reverse
        = ("\nReturn Type: ".data ++ pyToString (PyVal.pyType t)).reverse
          ++ ("Function Signature: ".data ++ sig ++ "\n        Docstring: ".data ++ doc
              ++ "\n        Arguments: ".data ++ argsT ++ ", ".data ++ kwargsT).reverse := by
      simp [List.reverse_append, List.append_assoc]
    rw [e]
    exact isPrefixB_append _ _
  · rw [hT]
    have e : "Function Signature: ".data ++ sig ++ "\n        Docstring: ".data ++ doc
          ++ "\n        Arguments: ".data ++ argsT ++ ", ".data ++ kwargsT
          ++ "\nReturn Type: ".data ++ pyToString (PyVal.pyType t)
        = "Function Signature: ".data
          ++ (sig ++ ("\n        Docstring: ".data ++ doc
              ++ "\n        Arguments: ".data ++ argsT ++ ", ".data ++ kwargsT
              ++ "\nReturn Type: ".data ++ pyToString (PyVal.pyType t))) := by
      simp [List.append_assoc]
    rw [e]
    exact containsSub_at _ _ _
  · rw [hT]
    have e : "Function Signature: ".data ++ sig ++ "\n        Docstring: ".data ++ doc
          ++ "\n        Arguments: ".data ++ argsT ++ ", ".data ++ kwargsT
          ++ "\nReturn Type: ".data ++ pyToString (PyVal.pyType t)
        = ("Function Signature: ".data ++ sig ++ "\n        Docstring: ".data)
          ++ (doc ++ ("\n        Arguments: ".data ++ argsT ++ ", ".data ++ kwargsT
              ++ "\nReturn Type: ".data ++ pyToString (PyVal.pyType t))) := by
      simp [List.append_assoc]
    rw [e]
    exact containsSub_at _ _ _
  · rw [hT]
    have e : "Function Signature: ".data ++ sig ++ "\n        Docstring: ".data ++ doc
          ++ "\n        Arguments: ".data ++ argsT ++ ", ".data ++ kwargsT
          ++ "\nReturn Type: ".data ++ pyToString (PyVal.pyType t)
        = ("Function Signature: ".data ++ sig ++ "\n        Docstring: ".data ++ doc
            ++ "\n        Arguments: ".data)
          ++ (argsT ++ (", ".data ++ kwargsT
              ++ "\nReturn Type: ".data ++ pyToString (PyVal.pyType t))) := by
      simp [List.append_assoc]
    rw [e]
    exact containsSub_at _ _ _
  · rw [hT]
    have e : "Function Signature: ".data ++ sig ++ "\n        Docstring: ".data ++ doc
          ++ "\n        Arguments: ".data ++ argsT ++ ", ".data ++ kwargsT
          ++ "\nReturn Type: ".data ++ pyToString (PyVal.pyType t)
        = ("Function Signature: ".data ++ sig ++ "\n        Docstring: ".data ++ doc
            ++ "\n        Arguments: ".data ++ argsT ++ ", ".data)
          ++ (kwargsT ++ ("\nReturn Type: ".data ++ pyToString (PyVal.pyType t))) := by
      simp [List.append_assoc]
    rw [e]
    exact containsSub_at _ _ _

/-- C9 counterexample: the integer annotation 0 is falsy — so the prompt
omits the Return Type line, exactly as with no annotation — yet the call
does not behave as if no return type were declared: line 139 of the source
tests `is None`, not falsiness, so the coercion-and-check path runs and
rejects every attempt, while the same call with no annotation returns the
raw text. -/
theorem c9_falsy_annotation_counterexample :
    truthy (returnTypeOf (Ann.given (PyVal.pyInt 0))) = false
  ∧ buildFunctionPrompt "f()".data "d".data "()".data "\x7b\x7d".data
        (Ann.given (PyVal.pyInt 0))
      = buildFunctionPrompt "f()".data "d".data "()".data "\x7b\x7d".data Ann.empty
  ∧ (vibe_call_function ⟨1, 0, 1, 1⟩ (fun _ => RoundTrip.ok (some "hello".data))
        "f()".data "d".data "()".data "\x7b\x7d".data (Ann.given (PyVal.pyInt 0))).result
      = Except.error (VibeError.responseType (callFailMsg (PyVal.pyInt 0)))
  ∧ (vibe_call_function ⟨1, 0, 1, 1⟩ (fun _ => RoundTrip.ok (some "hello".data))
        "f()".data "d".data "()".data "\x7b\x7d".data Ann.empty).result
      = Except.ok (PyVal.pyStr "hello".data) := by
  refine ⟨by decide, by decide, by rfl, by rfl⟩

/-- C9 amended: an explicit None return annotation behaves exactly as an
absent one — the prompt and the whole call outcome coincide — and every
falsy annotation omits the Return Type line from the prompt; but only a
None annotation skips the coercion path, as the counterexample's falsy
non-None annotation shows. -/
theorem c9_explicit_none_behavior (cfg : VibeCheckConfig) (oracle : ℕ → RoundTrip)
    (sig doc argsT kwargsT : List Char) (v : PyVal) :
    vibe_call_function cfg oracle sig doc argsT kwargsT (Ann.given PyVal.pyNone)
        = vibe_call_function cfg oracle sig doc argsT kwargsT Ann.empty
  ∧ buildFunctionPrompt sig doc argsT kwargsT (Ann.given PyVal.pyNone)
        = buildFunctionPrompt sig doc argsT kwargsT Ann.empty
  ∧ (truthy v = false →
      buildFunctionPrompt sig doc argsT kwargsT (Ann.given v)
        = buildFunctionPrompt sig doc argsT kwargsT Ann.empty) := by
  refine ⟨rfl, rfl, ?_⟩
  intro hv
  show stripL ("\n        Function Signature: ".data ++ sig ++ "\n        Docstring: ".data
      ++ doc ++ "\n        Arguments: ".data ++ argsT ++ ", ".data ++ kwargsT
      ++ (if truthy v = true then "\nReturn Type: ".data ++ pyToString v else [])
      ++ "\n        ".data)
    = buildFunctionPrompt sig doc argsT kwargsT Ann.empty
  rw [hv]
  rfl

theorem c9_explicit_none_behavior_witness :
    buildFunctionPrompt [] [] [] [] (Ann.given (PyVal.pyBool false))
      = buildFunctionPrompt [] [] [] [] Ann.empty :=
  (c9_explicit_none_behavior ⟨1, 0, 1, 1⟩ (fun _ => RoundTrip.err) [] [] [] []
    (PyVal.pyBool false)).2.2 rfl

/-- C10: a successful round trip whose response text is missing/None or
empty is treated as empty text and never raises on that attempt: statement
evaluation rejects it as boolean-free (a run of such responses fails only at
exhaustion, after every configured attempt), and function simulation with no
declared return type returns the empty string as its result. -/
theorem c10_empty_text (cfg : VibeCheckConfig) (o1 o2 : ℕ → RoundTrip)
    (st sig doc argsT kwargsT : List Char) :
    effText none = []
  ∧ effText (some []) = []
  ∧ evalVerdict (RoundTrip.ok none) = none
  ∧ evalVerdict (RoundTrip.ok (some [])) = none
  ∧ (o1 1 = RoundTrip.ok none →
      (vibe_call_function cfg o1 sig doc argsT kwargsT Ann.empty).result
        = Except.ok (PyVal.pyStr []))
  ∧ ((∀ j, o2 j = RoundTrip.ok none) →
      vibe_eval_statement cfg o2 st
        = ⟨Except.error (VibeError.responseType evalFailMsg),
           (List.range (totalTries cfg - 1)).map (fun m => backoffDelay cfg (1 + m)),
           totalTries cfg⟩) := by
  refine ⟨rfl, rfl, rfl, by decide, ?_, ?_⟩
  · intro ho
    have hacc : callVerdict (returnTypeOf Ann.empty) (o1 1)
        = some (PyVal.pyStr []) := by
      rw [ho]
      rfl
    rw [vibe_call_firstAccept cfg o1 sig doc argsT kwargsT Ann.empty 1 _ hacc le_rfl
      (totalTries_pos cfg) (fun i hi1 hi2 => absurd hi2 (by omega))]
  · intro h
    exact vibe_eval_allNone cfg o2 st (fun j => by rw [h j]; rfl)

theorem c10_empty_text_witness :
    (vibe_call_function ⟨1, 0, 1, 1⟩ (fun _ => RoundTrip.ok none)
        [] [] [] [] Ann.empty).result
      = Except.ok (PyVal.pyStr []) :=
  (c10_empty_text ⟨1, 0, 1, 1⟩ (fun _ => RoundTrip.ok none) (fun _ => RoundTrip.ok none)
    [] [] [] [] []).2.2.2.2.1 rfl

end VibeChecks
